import Mathlib

/-!
Verification development for the GeoProspector exploration-report pipeline.

The TypeScript sources are shallowly embedded below.  JavaScript numbers are
modelled as rationals (ℚ); strings are Lean strings (character lists where the
embedding needs to scan them); a rejected promise of a remote call is an
`Except GatewayError` value; the outcome of the JavaScript builtin
`JSON.parse` (an external runtime facility, not repository code) is passed in
as an `Option` parameter, where `none` models a parse that threw (or produced
a non-object value onto which the subsequent property assignment throws) and
`some` models a successfully parsed object whose fields are individually
optional, because the `as MiningReport` cast performs no validation.

Embedded code (file and line references are to the repository sources):
  - src/types.ts                `AnalysisStatus`, `Coordinates`,
                                `GeoDataPoint`, `MiningReport`, `NearbyPlace`
  - src/services/geminiService.ts  `analyzeGeology` (response processing,
                                lines 70-101), `performDeepThinkingAnalysis`,
                                `quickGeologyScan`, `findNearbyMines`,
                                `generateChartData`
  - src/App.tsx                 `getTargetCoords` (lines 69-77),
                                `handleAnalysis` (lines 84-117)
  - src/components/Sidebar.tsx  `parseCSV` (lines 72-88)
  - src/components/Dashboard.tsx  `handleDownloadCSV` (lines 104-111)
-/

namespace GeoProspector

/-- The finite status enumeration of src/types.ts. -/
inductive AnalysisStatus where
  | IDLE
  | UPLOADING
  | FETCHING_SATELLITE
  | PROCESSING_GEOPHYSICS
  | SCRAPING_DATA
  | ANALYZING_AI
  | COMPLETE
  | ERROR
deriving DecidableEq, Repr

/-- Position of a status in the forward progression of a run. -/
def statusRank : AnalysisStatus → Nat
  | .IDLE => 0
  | .UPLOADING => 1
  | .FETCHING_SATELLITE => 2
  | .PROCESSING_GEOPHYSICS => 3
  | .SCRAPING_DATA => 4
  | .ANALYZING_AI => 5
  | .COMPLETE => 6
  | .ERROR => 7

/-- Coordinates from src/types.ts; JavaScript numbers modelled as rationals. -/
structure Coordinates where
  lat : ℚ
  lng : ℚ
deriving DecidableEq, Repr

/-- Chart point (borehole log sample) from src/types.ts. -/
structure GeoDataPoint where
  depth : ℚ
  resistivity : ℚ
  magneticSusceptibility : ℚ
deriving DecidableEq, Repr

/-- Nearby place record from src/types.ts. -/
structure NearbyPlace where
  title : String
  uri : Option String := none
deriving DecidableEq, Repr

/-- A report object as it exists at runtime after `JSON.parse(...) as
MiningReport`: every field is optional because the cast validates nothing.
`targetMinerals` is assigned by `analyzeGeology`; `mapSnapshot`, `center`
and `boundary` are stitched in by `handleAnalysis` in src/App.tsx. -/
structure MiningReportJson where
  title : Option String := none
  location : Option String := none
  geologicalSummary : Option String := none
  mineralPotential : Option (List String) := none
  nearbyProjects : Option (List String) := none
  recommendations : Option String := none
  riskAssessment : Option String := none
  sources : Option (List String) := none
  rawMarkdown : Option String := none
  targetMinerals : Option String := none
  mapSnapshot : Option String := none
  center : Option Coordinates := none
  boundary : Option (List Coordinates) := none
deriving DecidableEq, Repr

/-- A rejected remote call (transport or upstream error). -/
structure GatewayError where
  msg : String
deriving DecidableEq, Repr

/-- Whether an `Except` value is an error. -/
def isErr {ε α : Type} : Except ε α → Bool
  | .error _ => true
  | .ok _ => false

/-! JavaScript string and number primitives used by the embedded code. -/

/-- Whitespace characters recognised by JavaScript `trim` / `parseFloat`
(ASCII subset; exotic Unicode space classes are not modelled). -/
def isWsChar (c : Char) : Bool :=
  c = ' ' || c = '\t' || c = '\r' || c = '\n' || c = '\x0b' || c = '\x0c'

/-- Split on the regular expression newline separator: a `\n`, optionally
preceded by `\r`.  A lone `\r` does not separate. -/
def splitLinesRN : List Char → List (List Char)
  | [] => [[]]
  | '\r' :: '\n' :: rest => [] :: splitLinesRN rest
  | '\n' :: rest => [] :: splitLinesRN rest
  | c :: rest =>
    match splitLinesRN rest with
    | [] => [[c]]
    | l :: ls => (c :: l) :: ls

/-- JavaScript `String.prototype.split` with a single-character separator. -/
def splitOnCharL (d : Char) : List Char → List (List Char)
  | [] => [[]]
  | c :: rest =>
    if c = d then [] :: splitOnCharL d rest
    else
      match splitOnCharL d rest with
      | [] => [[c]]
      | l :: ls => (c :: l) :: ls

/-- JavaScript `String.prototype.trim` on a character list. -/
def trimL (l : List Char) : List Char :=
  ((l.dropWhile isWsChar).reverse.dropWhile isWsChar).reverse

/-- Whether `pat` occurs as a prefix of `hay` (JavaScript `startsWith`). -/
def startsWithL : List Char → List Char → Bool
  | _, [] => true
  | [], _ :: _ => false
  | a :: as, b :: bs => a = b && startsWithL as bs

/-- Whether `pat` occurs as a contiguous substring of `hay`
(JavaScript `String.prototype.includes`). -/
def includesL : List Char → List Char → Bool
  | [], pat => pat.isEmpty
  | c :: rest, pat => startsWithL (c :: rest) pat || includesL rest pat

/-- Value of a digit string (most significant first). -/
def digitsVal (l : List Char) : Nat :=
  l.foldl (fun a c => a * 10 + (c.toNat - 48)) 0

/-- JavaScript `parseFloat`: skip leading whitespace, read an optional sign,
a decimal significand and an optional exponent, ignoring any trailing
characters; `none` models `NaN` (no digit could be consumed).  The special
literal `Infinity` is not representable in ℚ and is not modelled. -/
def jsParseFloat (s : String) : Option ℚ :=
  let cs := s.toList.dropWhile isWsChar
  let hasSign : Bool := match cs with | c :: _ => c = '-' || c = '+' | [] => false
  let isNeg : Bool := match cs with | c :: _ => c = '-' | [] => false
  let cs1 := if hasSign then cs.tail else cs
  let intD := cs1.takeWhile Char.isDigit
  let r1 := cs1.dropWhile Char.isDigit
  let hasDot : Bool := match r1 with | c :: _ => c = '.' | [] => false
  let fracD := if hasDot then r1.tail.takeWhile Char.isDigit else []
  let r2 := if hasDot then r1.tail.dropWhile Char.isDigit else r1
  if intD.isEmpty && fracD.isEmpty then none
  else
    let sgn : ℚ := if isNeg then -1 else 1
    let base : ℚ := (digitsVal intD : ℚ) + (digitsVal fracD : ℚ) / (10 : ℚ) ^ fracD.length
    let hasE : Bool := match r2 with | c :: _ => c = 'e' || c = 'E' | [] => false
    let r3 := if hasE then r2.tail else r2
    let eHasSign : Bool := match r3 with | c :: _ => c = '-' || c = '+' | [] => false
    let eNeg : Bool := match r3 with | c :: _ => c = '-' | [] => false
    let eD := (if eHasSign then r3.tail else r3).takeWhile Char.isDigit
    let exp : Int :=
      if hasE && !eD.isEmpty then
        if eNeg then -(digitsVal eD : Int) else (digitsVal eD : Int)
      else 0
    some (sgn * (base * (10 : ℚ) ^ exp))

/-- JavaScript `a || b` for an optional string `a`: the default is taken
when `a` is `undefined` or the empty string (both falsy). -/
def jsOr (t : Option String) (d : String) : String :=
  match t with
  | some s => if s = "" then d else s
  | none => d

/-- JavaScript `[...new Set(l)]`: iteration follows insertion order and an
element already present is not moved, so the first occurrence is kept. -/
def jsSetDedup (l : List String) : List String :=
  l.foldl (fun acc x => if x ∈ acc then acc else acc ++ [x]) []

/-- Deduplication as the specification words it: keep the first occurrence
of every string, removing the later duplicates. -/
def specDedupKeepFirst : List String → List String
  | [] => []
  | x :: xs => x :: specDedupKeepFirst (xs.filter (fun y => y ≠ x))
termination_by l => l.length
decreasing_by
  simp only [List.length_cons]
  exact Nat.lt_succ_of_le (List.length_filter_le _ _)

/-- Decimal digits of a natural number, most significant first; the fuel
argument makes the recursion structural. -/
def natDigitsAux (fuel n : Nat) : List Char :=
  match fuel with
  | 0 => []
  | fuel + 1 =>
    if n = 0 then []
    else natDigitsAux fuel (n / 10) ++ [Char.ofNat (48 + n % 10)]

/-- Decimal rendering of a natural number. -/
def natStr (n : Nat) : String :=
  if n = 0 then "0" else String.mk (natDigitsAux (n + 1) n)

/-- Decimal rendering of an integer. -/
def intStr (i : Int) : String :=
  match i with
  | .ofNat n => natStr n
  | .negSucc n => "-" ++ natStr (n + 1)

/-- The embedding of JavaScript number-to-string conversion in template
literals: integers print exactly; a non-integral rational is rendered as a
fraction (a modelling stand-in for decimal float printing — no embedded
claim depends on the digits of a non-integral value). -/
def numStr (q : ℚ) : String :=
  if q.den = 1 then intStr q.num else intStr q.num ++ "/" ++ natStr q.den

/-- The template literal rendering a coordinate pair as text. -/
def coordLabel (c : Coordinates) : String :=
  numStr c.lat ++ ", " ++ numStr c.lng

/-! Service layer: src/services/geminiService.ts. -/

/-- The hard-coded fallback report built by `analyzeGeology` in
src/services/geminiService.ts (lines 81-92) when `JSON.parse` of the
response text throws.  `rawMarkdown` is
`response.text || "# Exploration Report\nNo markdown available."`. -/
def fallbackReport (text : Option String) (locationName : String)
    (targetMinerals : String) (coords : Coordinates) : MiningReportJson :=
  { title := some ("Exploration Dossier: " ++ locationName)
    location := some (coordLabel coords)
    geologicalSummary := some "Analysis generated successfully."
    mineralPotential := some ["Unknown"]
    nearbyProjects := some []
    recommendations := some "Further ground-truthing required."
    riskAssessment := some "Information limited."
    sources := some []
    targetMinerals := some targetMinerals
    rawMarkdown := some (jsOr text "# Exploration Report\nNo markdown available.") }

/-- The provenance merge of `analyzeGeology` (lines 95-99): when the report
object has a `sources` field (any array is truthy, even the empty one) the
grounding sources are appended and the whole list deduplicated with a `Set`;
otherwise the grounding list is installed as-is. -/
def mergeGrounding (p : MiningReportJson) (grounding : List String) :
    MiningReportJson :=
  match p.sources with
  | some s => { p with sources := some (jsSetDedup (s ++ grounding)) }
  | none => { p with sources := some grounding }

/-- Response processing of `analyzeGeology` in src/services/geminiService.ts
(lines 70-101).  `text` is `response.text`; `parsed` is the outcome of the
JavaScript `JSON.parse(response.text || "\x7b\x7d")` followed by the property
assignment `parsedData.targetMinerals = targetMinerals` (both inside the same
`try`): `none` when that sequence threw, `some p` when it produced an object.
`grounding` is the list of grounding-chunk URIs.  The function is total: the
parse-failure path never throws, it synthesizes the fallback report. -/
def analyzeGeologyProcess (text : Option String) (parsed : Option MiningReportJson)
    (grounding : List String) (locationName : String) (targetMinerals : String)
    (coords : Coordinates) : MiningReportJson :=
  match parsed with
  | some p => mergeGrounding { p with targetMinerals := some targetMinerals } grounding
  | none => mergeGrounding (fallbackReport text locationName targetMinerals coords) grounding

/-- `performDeepThinkingAnalysis` (geminiService.ts lines 109-127): returns
`response.text || "Analysis failed."` on success and the fixed string
`"Deep thinking analysis unavailable."` when the call rejects.  It never
rethrows: its value is always a plain string. -/
def performDeepThinkingAnalysis (gw : Except GatewayError (Option String)) : String :=
  match gw with
  | .ok t => jsOr t "Analysis failed."
  | .error _ => "Deep thinking analysis unavailable."

/-- `quickGeologyScan` (geminiService.ts lines 129-139): empty string on a
rejected call, `response.text || "No data."` otherwise. -/
def quickGeologyScan (gw : Except GatewayError (Option String)) : String :=
  match gw with
  | .ok t => jsOr t "No data."
  | .error _ => ""

/-- A line is kept by `findNearbyMines` when it contains `"- "` or matches
the regular expression of a digit followed by a dot at the start. -/
def nearbyLineKeep (l : List Char) : Bool :=
  includesL l ['-', ' '] ||
    (match l with
     | c1 :: c2 :: _ => c1.isDigit && c2 = '.'
     | _ => false)

/-- The `replace` of the first occurrence of a dash or asterisk followed by a
whitespace character, as in `line.replace(..., '')` of `findNearbyMines`. -/
def dropFirstMarker : List Char → List Char
  | [] => []
  | [c] => [c]
  | c1 :: c2 :: rest =>
    if (c1 = '-' || c1 = '*') && isWsChar c2 then rest
    else c1 :: dropFirstMarker (c2 :: rest)

/-- `findNearbyMines` (geminiService.ts lines 141-165): on a rejected call
the empty list; otherwise the kept lines of the response text, each with its
leading list marker removed and trimmed, as place titles. -/
def findNearbyMines (gw : Except GatewayError (Option String)) : List NearbyPlace :=
  match gw with
  | .error _ => []
  | .ok t =>
    ((splitOnCharL '\n' (jsOr t "").toList).filter nearbyLineKeep).map
      (fun l => { title := String.mk (trimL (dropFirstMarker l)) })

/-- `generateChartData` (geminiService.ts lines 187-214): `parsed` is the
outcome of `JSON.parse(response.text)` (`none` when it threw — the throw is
caught and turned into `[]`).  A rejected call or an empty/absent response
text also gives `[]`.  The function never rejects. -/
def generateChartData (gw : Except GatewayError (Option String))
    (parsed : Option (List GeoDataPoint)) : List GeoDataPoint :=
  match gw with
  | .error _ => []
  | .ok t =>
    match t with
    | none => []
    | some s => if s = "" then [] else parsed.getD []

/-! Orchestrator: src/App.tsx. -/

/-- The component state touched by `handleAnalysis` in src/App.tsx.
`alerts` records user-visible `alert(...)` calls; `handleAnalysis` in
src/App.tsx contains none, so no embedded function appends to it. -/
structure AppState where
  status : AnalysisStatus := .IDLE
  report : Option MiningReportJson := none
  chartData : List GeoDataPoint := []
  deepAnalysisResult : Option String := none
  quickScanResult : String := ""
  nearbyPlaces : List NearbyPlace := []
  alerts : List String := []
deriving DecidableEq, Repr

/-- The synchronous prefix of `handleAnalysis` (src/App.tsx lines 85-87),
run before any Model Gateway call: it sets the status to UPLOADING and
resets the report and the deep-analysis text.  No other state field is
written there; in particular `chartData` is left untouched. -/
def handleAnalysisReset (s : AppState) : AppState :=
  { s with status := .UPLOADING, report := none, deepAnalysisResult := none }

/-- `getTargetCoords` (src/App.tsx lines 69-77): the mean of the plotted
points when the plotted area is in use and has at least 3 points, the
manually selected coordinate otherwise.  The sums are the source's
`reduce((s, p) => s + p.lat, 0)` folds. -/
def getTargetCoords (usePlottedArea : Bool) (plottedPoints : List Coordinates)
    (coordinates : Coordinates) : Coordinates :=
  if usePlottedArea && decide (3 ≤ plottedPoints.length) then
    { lat := plottedPoints.foldl (fun s p => s + p.lat) 0 / (plottedPoints.length : ℚ)
      lng := plottedPoints.foldl (fun s p => s + p.lng) 0 / (plottedPoints.length : ℚ) }
  else coordinates

/-- The arithmetic-mean centroid, as the specification words it. -/
def centroid (pts : List Coordinates) : Coordinates :=
  { lat := (pts.map (·.lat)).sum / (pts.length : ℚ)
    lng := (pts.map (·.lng)).sum / (pts.length : ℚ) }

/-- The ANALYZING_AI block of `handleAnalysis` (src/App.tsx lines 102-116).
`reportRes` and `chartRes` are the settled outcomes of the two required
promises combined by `Promise.all`; if either rejected the `catch` sets the
status to ERROR and nothing else is written.  When both resolve, the report
(with snapshot, centre and boundary stitched in) and the chart data are
stored, the optional deep pass result is stored, and the status becomes
COMPLETE.  No `alert` call occurs in this handler. -/
def analyzingPhase (s : AppState)
    (reportRes : Except GatewayError MiningReportJson)
    (chartRes : Except GatewayError (List GeoDataPoint))
    (useDeepThinking : Bool) (deepGw : Except GatewayError (Option String))
    (snapshot : String) (targetCoords : Coordinates)
    (polygon : Option (List Coordinates)) : AppState :=
  let s1 := { s with status := .ANALYZING_AI }
  match reportRes, chartRes with
  | .ok result, .ok data =>
    let s2 := { s1 with
      report := some { result with
        mapSnapshot := some snapshot
        center := some targetCoords
        boundary := polygon }
      chartData := data }
    let s3 :=
      if useDeepThinking then
        { s2 with deepAnalysisResult := some (performDeepThinkingAnalysis deepGw) }
      else s2
    { s3 with status := .COMPLETE }
  | _, _ => { s1 with status := .ERROR }

/-- The sequence of status values one run of `handleAnalysis` writes: the
reset sets UPLOADING, the timers at 800 ms, 2000 ms and 3500 ms fire in
delay order, the 5000 ms timer sets ANALYZING_AI and its continuation ends
with the final status of the analyzing phase. -/
def runStatusTrace (s : AppState)
    (reportRes : Except GatewayError MiningReportJson)
    (chartRes : Except GatewayError (List GeoDataPoint))
    (useDeepThinking : Bool) (deepGw : Except GatewayError (Option String))
    (snapshot : String) (targetCoords : Coordinates)
    (polygon : Option (List Coordinates)) : List AnalysisStatus :=
  [ (handleAnalysisReset s).status,
    .FETCHING_SATELLITE,
    .PROCESSING_GEOPHYSICS,
    .SCRAPING_DATA,
    .ANALYZING_AI,
    (analyzingPhase (handleAnalysisReset s) reportRes chartRes useDeepThinking
      deepGw snapshot targetCoords polygon).status ]

/-! Boundary importer: `parseCSV` in src/components/Sidebar.tsx (lines 72-88). -/

/-- The `clean` helper of `parseCSV`: remove quote characters, trim, and
lower-case (applied to header cells only). -/
def cleanL (l : List Char) : List Char :=
  (trimL (l.filter (fun c => !(c = Char.ofNat 39 || c = Char.ofNat 34)))).map Char.toLower

/-- The non-blank lines of the CSV text: split on `\r?\n` and drop the lines
that trim to nothing. -/
def csvLines (content : String) : List (List Char) :=
  (splitLinesRN content.toList).filter (fun l => !(trimL l).isEmpty)

/-- Delimiter detection of `parseCSV`: a comma when the first line contains
one, a tab otherwise. -/
def csvDelim (firstLine : List Char) : Char :=
  if includesL firstLine [','] then ',' else '\t'

/-- The latitude column: first header cell containing `lat` or `y`. -/
def csvLatIdx (headers : List (List Char)) : Option Nat :=
  headers.findIdx? (fun h => includesL h ['l', 'a', 't'] || includesL h ['y'])

/-- The longitude column: first header cell containing `lon`, `lng` or `x`. -/
def csvLngIdx (headers : List (List Char)) : Option Nat :=
  headers.findIdx? (fun h =>
    includesL h ['l', 'o', 'n'] || includesL h ['l', 'n', 'g'] || includesL h ['x'])

/-- `parseFloat(parts[idx])` on a split row: an out-of-range or `-1` index
reads `undefined`, whose `parseFloat` is `NaN` (here `none`).  The data cell
is not cleaned — only headers are. -/
def csvField (parts : List (List Char)) (idx : Option Nat) : Option ℚ := do
  let i ← idx
  let f ← parts.get? i
  jsParseFloat (String.mk f)

/-- One data row of `parseCSV`: a coordinate exactly when both designated
cells parse as floats; no range validation is applied. -/
def csvRowCoord (delim : Char) (latIdx lngIdx : Option Nat) (row : List Char) :
    Option Coordinates :=
  let parts := splitOnCharL delim row
  match csvField parts latIdx, csvField parts lngIdx with
  | some lat, some lng => some { lat := lat, lng := lng }
  | _, _ => none

/-- The `for` loop of `parseCSV`, pushing the accepted rows in file order. -/
def csvRowsLoop (delim : Char) (latIdx lngIdx : Option Nat) :
    List (List Char) → List Coordinates
  | [] => []
  | row :: rest =>
    match csvRowCoord delim latIdx lngIdx row with
    | some c => c :: csvRowsLoop delim latIdx lngIdx rest
    | none => csvRowsLoop delim latIdx lngIdx rest

/-- `parseCSV` of src/components/Sidebar.tsx: header detection on line 0,
then the data loop from line 1 on. -/
def parseCSV (content : String) : List Coordinates :=
  match csvLines content with
  | [] => []
  | firstLine :: restRows =>
    let delim := csvDelim firstLine
    let headers := (splitOnCharL delim firstLine).map cleanL
    csvRowsLoop delim (csvLatIdx headers) (csvLngIdx headers) restRows

/-! Chart CSV export: `handleDownloadCSV` in src/components/Dashboard.tsx
(lines 104-111). -/

/-- One exported row: the template literal of `handleDownloadCSV`. -/
def chartRow (d : GeoDataPoint) : String :=
  numStr d.depth ++ "," ++ numStr d.resistivity ++ "," ++ numStr d.magneticSusceptibility

/-- JavaScript `Array.prototype.join`. -/
def jsJoin (sep : String) : List String → String
  | [] => ""
  | x :: xs => xs.foldl (fun a r => a ++ sep ++ r) x

/-- `handleDownloadCSV`: nothing is produced for an empty chart sequence
(the early `return`); otherwise the blob text is the header line
`depth_m,resistivity_ohmm,mag_sus` followed by the joined rows. -/
def handleDownloadCSV (chartData : List GeoDataPoint) : Option String :=
  if chartData.isEmpty then none
  else some ("depth_m,resistivity_ohmm,mag_sus\n" ++
    jsJoin "\n" (chartData.map chartRow))

/-- Whether a status list moves strictly forward at every step. -/
def strictlyForward : List AnalysisStatus → Bool
  | [] => true
  | [_] => true
  | a :: b :: rest => decide (statusRank a < statusRank b) && strictlyForward (b :: rest)

/-! Helper lemmas. -/

/-- A fold accumulating `f p` over a list is the initial value plus the sum
of the mapped list. -/
theorem foldl_add_map {α : Type} (f : α → ℚ) :
    ∀ (l : List α) (a : ℚ), l.foldl (fun s p => s + f p) a = a + (l.map f).sum := by
  intro l
  induction l with
  | nil => intro a; simp
  | cons x xs ih =>
    intro a
    simp only [List.foldl_cons, List.map_cons, List.sum_cons, ih]
    ring

/-- Upper bound for a list sum from a pointwise bound. -/
theorem listSum_le (l : List ℚ) (hi : ℚ) (h : ∀ x ∈ l, x ≤ hi) :
    l.sum ≤ (l.length : ℚ) * hi := by
  induction l with
  | nil => simp
  | cons x xs ih =>
    have hx : x ≤ hi := h x (by simp)
    have hxs : xs.sum ≤ (xs.length : ℚ) * hi :=
      ih (fun y hy => h y (by simp [hy]))
    simp only [List.sum_cons, List.length_cons]
    push_cast
    nlinarith

/-- Lower bound for a list sum from a pointwise bound. -/
theorem le_listSum (l : List ℚ) (lo : ℚ) (h : ∀ x ∈ l, lo ≤ x) :
    (l.length : ℚ) * lo ≤ l.sum := by
  induction l with
  | nil => simp
  | cons x xs ih =>
    have hx : lo ≤ x := h x (by simp)
    have hxs : (xs.length : ℚ) * lo ≤ xs.sum :=
      ih (fun y hy => h y (by simp [hy]))
    simp only [List.sum_cons, List.length_cons]
    push_cast
    nlinarith

/-- The mean of a non-empty list lies between any pointwise bounds. -/
theorem mean_bounds (l : List ℚ) (lo hi : ℚ) (hne : l ≠ [])
    (h : ∀ x ∈ l, lo ≤ x ∧ x ≤ hi) :
    lo ≤ l.sum / (l.length : ℚ) ∧ l.sum / (l.length : ℚ) ≤ hi := by
  have hn : 0 < (l.length : ℚ) := by
    have := List.length_pos.mpr hne
    exact_mod_cast this
  constructor
  · rw [le_div_iff₀ hn]
    have := le_listSum l lo (fun x hx => (h x hx).1)
    linarith [this]
  · rw [div_le_iff₀ hn]
    have := listSum_le l hi (fun x hx => (h x hx).2)
    linarith [this]

/-- The `Set`-based fold deduplication with accumulator `acc` appends, after
`acc`, the spec-style deduplication of the elements not already in `acc`. -/
theorem jsSetDedup_go (l : List String) : ∀ acc : List String,
    l.foldl (fun a x => if x ∈ a then a else a ++ [x]) acc
      = acc ++ specDedupKeepFirst (l.filter (fun y => decide (y ∉ acc))) := by
  induction l with
  | nil => intro acc; simp [specDedupKeepFirst]
  | cons x xs ih =>
    intro acc
    by_cases hx : x ∈ acc
    · have hfilter : (x :: xs).filter (fun y => decide (y ∉ acc))
          = xs.filter (fun y => decide (y ∉ acc)) := by
        simp [List.filter_cons, hx]
      rw [hfilter, List.foldl_cons]
      simp only [hx, if_pos]
      exact ih acc
    · have hfilter : (x :: xs).filter (fun y => decide (y ∉ acc))
          = x :: xs.filter (fun y => decide (y ∉ acc)) := by
        simp [List.filter_cons, hx]
      rw [hfilter, List.foldl_cons]
      simp only [hx, if_neg, not_false_eq_true]
      rw [ih (acc ++ [x])]
      have hff : xs.filter (fun y => decide (y ∉ acc ++ [x]))
          = (xs.filter (fun y => decide (y ∉ acc))).filter (fun y => decide (y ≠ x)) := by
        rw [List.filter_filter]
        apply List.filter_congr
        intro y _
        by_cases h1 : y ∈ acc <;> by_cases h2 : y = x <;> simp [h1, h2]
      rw [hff, specDedupKeepFirst, List.append_assoc]
      rfl

/-- The JavaScript `Set` deduplication equals the specification's
keep-the-first-occurrence deduplication. -/
theorem jsSetDedup_eq_spec (l : List String) :
    jsSetDedup l = specDedupKeepFirst l := by
  have h := jsSetDedup_go l []
  simpa [jsSetDedup] using h

/-- The push loop over the data rows is a `filterMap`. -/
theorem csvRowsLoop_eq_filterMap (delim : Char) (latIdx lngIdx : Option Nat) :
    ∀ rows : List (List Char),
      csvRowsLoop delim latIdx lngIdx rows
        = rows.filterMap (csvRowCoord delim latIdx lngIdx) := by
  intro rows
  induction rows with
  | nil => rfl
  | cons r rest ih =>
    rw [csvRowsLoop, List.filterMap_cons]
    cases csvRowCoord delim latIdx lngIdx r with
    | none => simpa using ih
    | some c => simpa using ih

/-- Folding the join step over an appended seed distributes. -/
theorem jsJoin_foldl_append (sep : String) :
    ∀ (xs : List String) (a b : String),
      xs.foldl (fun acc r => acc ++ sep ++ r) (a ++ b)
        = a ++ xs.foldl (fun acc r => acc ++ sep ++ r) b := by
  intro xs
  induction xs with
  | nil => intro a b; rfl
  | cons x rest ih =>
    intro a b
    simp only [List.foldl_cons, String.append_assoc] at ih ⊢
    exact ih a (b ++ (sep ++ x))

/-- `join` over a cons with a non-empty tail splits off the head. -/
theorem jsJoin_cons (sep x : String) (xs : List String) (h : xs ≠ []) :
    jsJoin sep (x :: xs) = x ++ sep ++ jsJoin sep xs := by
  cases xs with
  | nil => exact absurd rfl h
  | cons y ys =>
    show ys.foldl (fun acc r => acc ++ sep ++ r) (x ++ sep ++ y)
      = (x ++ sep) ++ ys.foldl (fun acc r => acc ++ sep ++ r) y
    exact jsJoin_foldl_append sep ys (x ++ sep) y

/-- When the plotted area is in use with at least 3 points, the resolved
target is the centroid (the folds are the mapped sums). -/
theorem getTargetCoords_eq_centroid (pts : List Coordinates) (c : Coordinates)
    (h3 : 3 ≤ pts.length) : getTargetCoords true pts c = centroid pts := by
  unfold getTargetCoords centroid
  rw [if_pos (by simp [h3])]
  rw [foldl_add_map (fun p => p.lat) pts 0, foldl_add_map (fun p => p.lng) pts 0]
  norm_num

/-- In every other case the manually selected coordinate is returned. -/
theorem getTargetCoords_eq_self (flag : Bool) (pts : List Coordinates)
    (c : Coordinates) (h : ¬(flag = true ∧ 3 ≤ pts.length)) :
    getTargetCoords flag pts c = c := by
  unfold getTargetCoords
  rw [if_neg]
  simpa [Bool.and_eq_true, decide_eq_true_eq] using h

/-! Claim theorems. -/

/-- Claim C7: for every plotted boundary with at least 3 points that is in
use, the resolved target coordinate is the arithmetic mean of the boundary
points' latitudes and longitudes; consequently it lies within the boundary's
latitude/longitude bounding box, and for the boundary
`[(1,1), (1,2), (2, 1.5)]` it equals `(4/3, 1.5)`. -/
theorem c7_target_is_centroid (usePlottedArea : Bool) (pts : List Coordinates)
    (c : Coordinates) (hu : usePlottedArea = true) (h3 : 3 ≤ pts.length) :
    getTargetCoords usePlottedArea pts c = centroid pts
    ∧ (∀ lo hi : ℚ, (∀ p ∈ pts, lo ≤ p.lat ∧ p.lat ≤ hi) →
        lo ≤ (getTargetCoords usePlottedArea pts c).lat
          ∧ (getTargetCoords usePlottedArea pts c).lat ≤ hi)
    ∧ (∀ lo hi : ℚ, (∀ p ∈ pts, lo ≤ p.lng ∧ p.lng ≤ hi) →
        lo ≤ (getTargetCoords usePlottedArea pts c).lng
          ∧ (getTargetCoords usePlottedArea pts c).lng ≤ hi)
    ∧ (∀ c2 : Coordinates,
        getTargetCoords true [⟨1, 1⟩, ⟨1, 2⟩, ⟨2, 3/2⟩] c2 = ⟨4/3, 3/2⟩) := by
  subst hu
  have hne : pts ≠ [] := by
    intro hnil
    rw [hnil] at h3
    simp at h3
  have hEq := getTargetCoords_eq_centroid pts c h3
  refine ⟨hEq, ?_, ?_, ?_⟩
  · intro lo hi hb
    rw [hEq]
    have hmne : pts.map (fun p => p.lat) ≠ [] := by simpa using hne
    have hmb : ∀ x ∈ pts.map (fun p => p.lat), lo ≤ x ∧ x ≤ hi := by
      intro x hx
      obtain ⟨p, hp, rfl⟩ := List.mem_map.mp hx
      exact hb p hp
    have := mean_bounds (pts.map (fun p => p.lat)) lo hi hmne hmb
    simpa [centroid] using this
  · intro lo hi hb
    rw [hEq]
    have hmne : pts.map (fun p => p.lng) ≠ [] := by simpa using hne
    have hmb : ∀ x ∈ pts.map (fun p => p.lng), lo ≤ x ∧ x ≤ hi := by
      intro x hx
      obtain ⟨p, hp, rfl⟩ := List.mem_map.mp hx
      exact hb p hp
    have := mean_bounds (pts.map (fun p => p.lng)) lo hi hmne hmb
    simpa [centroid] using this
  · intro c2
    simp [getTargetCoords]
    norm_num

/-- Witness for C7 at the boundary `[(1,1), (1,2), (2, 3/2)]` with bounding
box `[1, 2] × [1, 2]`. -/
theorem c7_target_is_centroid_witness :
    getTargetCoords true [⟨1, 1⟩, ⟨1, 2⟩, ⟨2, 3/2⟩] ⟨0, 0⟩
        = centroid [⟨1, 1⟩, ⟨1, 2⟩, ⟨2, 3/2⟩]
    ∧ (1 : ℚ) ≤ (getTargetCoords true [⟨1, 1⟩, ⟨1, 2⟩, ⟨2, 3/2⟩] ⟨0, 0⟩).lat
    ∧ (getTargetCoords true [⟨1, 1⟩, ⟨1, 2⟩, ⟨2, 3/2⟩] ⟨0, 0⟩).lat ≤ 2
    ∧ getTargetCoords true [⟨1, 1⟩, ⟨1, 2⟩, ⟨2, 3/2⟩] ⟨0, 0⟩ = ⟨4/3, 3/2⟩ := by
  have h := c7_target_is_centroid true [⟨1, 1⟩, ⟨1, 2⟩, ⟨2, 3/2⟩] ⟨0, 0⟩ rfl
    (by norm_num)
  have hb := h.2.1 1 2 (by intro p hp; fin_cases hp <;> norm_num)
  exact ⟨h.1, hb.1, hb.2, h.2.2.2 ⟨0, 0⟩⟩

/-- Claim C10: target resolution is total and never averages an empty list:
the polygon mean is computed only when the flag is set and at least 3 points
are plotted; in every other case the manually selected coordinate is
returned unchanged, so the centroid is only ever taken of a list with at
least 3 (in particular at least 1) elements. -/
theorem c10_target_total :
    (∀ (flag : Bool) (pts : List Coordinates) (c : Coordinates),
        flag = false ∨ pts.length < 3 → getTargetCoords flag pts c = c)
    ∧ (∀ (flag : Bool) (pts : List Coordinates) (c : Coordinates),
        getTargetCoords flag pts c = c
          ∨ (3 ≤ pts.length ∧ getTargetCoords flag pts c = centroid pts)) := by
  constructor
  · intro flag pts c h
    apply getTargetCoords_eq_self
    rintro ⟨hflag, hlen⟩
    rcases h with h | h
    · rw [hflag] at h; cases h
    · exact absurd hlen (by omega)
  · intro flag pts c
    by_cases hcond : flag = true ∧ 3 ≤ pts.length
    · right
      refine ⟨hcond.2, ?_⟩
      rw [hcond.1]
      exact getTargetCoords_eq_centroid pts c hcond.2
    · left
      exact getTargetCoords_eq_self flag pts c hcond

/-- Witness for C10: with the flag unset (and with only 2 points) the
selected coordinate is returned unchanged. -/
theorem c10_target_total_witness :
    getTargetCoords false [⟨1, 1⟩, ⟨1, 2⟩, ⟨2, 3/2⟩] ⟨5, 6⟩ = ⟨5, 6⟩
    ∧ getTargetCoords true [⟨1, 1⟩, ⟨1, 2⟩] ⟨5, 6⟩ = ⟨5, 6⟩ :=
  ⟨c10_target_total.1 false [⟨1, 1⟩, ⟨1, 2⟩, ⟨2, 3/2⟩] ⟨5, 6⟩ (Or.inl rfl),
   c10_target_total.1 true [⟨1, 1⟩, ⟨1, 2⟩] ⟨5, 6⟩ (Or.inr (by norm_num))⟩

/-- The provenance merge never touches the `rawMarkdown` field. -/
theorem mergeGrounding_rawMarkdown (q : MiningReportJson) (g : List String) :
    (mergeGrounding q g).rawMarkdown = q.rawMarkdown := by
  cases q with
  | mk t l gs mp np rec risk srcs raw tm ms ce bd =>
    unfold mergeGrounding
    cases srcs <;> rfl

/-- Claim C2: for every parsed-or-fallback report whose sources list is `S`
and every grounding-provenance list `P`, the merged sources list returned by
`analyzeGeology` is the concatenation of `S` then `P` with duplicates (exact
string equality) removed keeping the first occurrence; the fallback report's
pre-merge sources list is empty, so there the result is the deduplicated
provenance. -/
theorem c2_sources_merge (p : MiningReportJson) (S grounding : List String)
    (text : Option String) (locationName targetMinerals : String)
    (coords : Coordinates) (hS : p.sources = some S) :
    (analyzeGeologyProcess text (some p) grounding locationName targetMinerals
        coords).sources = some (specDedupKeepFirst (S ++ grounding))
    ∧ (analyzeGeologyProcess text none grounding locationName targetMinerals
        coords).sources = some (specDedupKeepFirst ([] ++ grounding)) := by
  constructor
  · show (mergeGrounding { p with targetMinerals := some targetMinerals }
      grounding).sources = _
    unfold mergeGrounding
    simp only [hS]
    rw [jsSetDedup_eq_spec]
  · show (mergeGrounding (fallbackReport text locationName targetMinerals coords)
      grounding).sources = _
    unfold mergeGrounding fallbackReport
    simp only []
    rw [jsSetDedup_eq_spec]

/-- Witness for C2: sources `[a, b, a]` merged with provenance `[b, c]`
yield `[a, b, c]`. -/
theorem c2_sources_merge_witness :
    (analyzeGeologyProcess (some "txt")
        (some { sources := some ["a", "b", "a"] }) ["b", "c"] "Loc" "" ⟨1, 2⟩).sources
      = some ["a", "b", "c"] := by
  have h := (c2_sources_merge { sources := some ["a", "b", "a"] } ["a", "b", "a"]
    ["b", "c"] (some "txt") "Loc" "" ⟨1, 2⟩ rfl).1
  rw [h, ← jsSetDedup_eq_spec]
  decide

/-- Claim C1 (amended): for every raw model response with non-empty text
whose text fails strict JSON parsing, `analyzeGeology` does not throw on
that path (the processing below is a total function): it returns a fallback
report whose `rawMarkdown` is the original response text verbatim, whose
`geologicalSummary` is the fixed string "Analysis generated successfully.",
whose `mineralPotential` defaults to the one-element list ["Unknown"], whose
`nearbyProjects` and pre-merge `sources` are empty, and whose title and
location are synthesized from the caller's location name and coordinates. -/
theorem c1_fallback_fields (text : Option String) (grounding : List String)
    (locationName targetMinerals : String) (coords : Coordinates) (t : String)
    (ht : text = some t) (htne : t ≠ "") :
    (analyzeGeologyProcess text none grounding locationName targetMinerals
        coords).rawMarkdown = some t
    ∧ (analyzeGeologyProcess text none grounding locationName targetMinerals
        coords).geologicalSummary = some "Analysis generated successfully."
    ∧ (analyzeGeologyProcess text none grounding locationName targetMinerals
        coords).mineralPotential = some ["Unknown"]
    ∧ (analyzeGeologyProcess text none grounding locationName targetMinerals
        coords).nearbyProjects = some []
    ∧ (analyzeGeologyProcess text none grounding locationName targetMinerals
        coords).title = some ("Exploration Dossier: " ++ locationName)
    ∧ (analyzeGeologyProcess text none grounding locationName targetMinerals
        coords).location = some (coordLabel coords)
    ∧ (analyzeGeologyProcess text none grounding locationName targetMinerals
        coords).sources = some (specDedupKeepFirst grounding) := by
  subst ht
  unfold analyzeGeologyProcess mergeGrounding fallbackReport
  simp [jsOr, htne, jsSetDedup_eq_spec]

/-- Witness for C1 at the spec's own scenario text "not json at all". -/
theorem c1_fallback_fields_witness :
    (analyzeGeologyProcess (some "not json at all") none ["u"] "Loc" "Au"
        ⟨1, 2⟩).rawMarkdown = some "not json at all"
    ∧ (analyzeGeologyProcess (some "not json at all") none ["u"] "Loc" "Au"
        ⟨1, 2⟩).title = some ("Exploration Dossier: " ++ "Loc") := by
  have h := c1_fallback_fields (some "not json at all") ["u"] "Loc" "Au" ⟨1, 2⟩
    "not json at all" rfl (by decide)
  exact ⟨h.1, h.2.2.2.2.1⟩

/-- Counterexample to claim C1 as stated: at the spec's scenario text
"not json at all" the fallback report's `mineralPotential` is the non-empty
list ["Unknown"] and its `geologicalSummary` is a fixed placeholder, not the
original response text. -/
theorem c1_counterexample :
    (analyzeGeologyProcess (some "not json at all") none [] "Pilanesberg" ""
        ⟨1, 2⟩).mineralPotential = some ["Unknown"]
    ∧ (analyzeGeologyProcess (some "not json at all") none [] "Pilanesberg" ""
        ⟨1, 2⟩).mineralPotential ≠ some []
    ∧ (analyzeGeologyProcess (some "not json at all") none [] "Pilanesberg" ""
        ⟨1, 2⟩).geologicalSummary = some "Analysis generated successfully."
    ∧ (analyzeGeologyProcess (some "not json at all") none [] "Pilanesberg" ""
        ⟨1, 2⟩).geologicalSummary ≠ some "not json at all" := by
  refine ⟨by decide, by decide, by decide, by decide⟩

/-- Claim C5 (amended): every report produced via the parse-failure fallback
path has a non-empty `rawMarkdown` (the original response text, or the
synthesized placeholder when the text is empty or absent); a report from a
successfully parsed response carries the parsed `rawMarkdown` unchanged,
which may be absent or empty. -/
theorem c5_fallback_rawMarkdown (text : Option String) (grounding : List String)
    (locationName targetMinerals : String) (coords : Coordinates) :
    (∃ s : String,
      (analyzeGeologyProcess text none grounding locationName targetMinerals
          coords).rawMarkdown = some s ∧ s ≠ "")
    ∧ (∀ p : MiningReportJson,
        (analyzeGeologyProcess text (some p) grounding locationName
            targetMinerals coords).rawMarkdown = p.rawMarkdown) := by
  constructor
  · refine ⟨jsOr text "# Exploration Report\nNo markdown available.", rfl, ?_⟩
    unfold jsOr
    cases text with
    | none => decide
    | some s =>
      by_cases hs : s = ""
      · simp [hs]
      · simp [hs]
  · intro p
    show (mergeGrounding { p with targetMinerals := some targetMinerals }
      grounding).rawMarkdown = p.rawMarkdown
    rw [mergeGrounding_rawMarkdown]

/-- Counterexample to claim C5 as stated: a model response consisting of the
two characters `\x7b\x7d` parses as the empty JSON object, and the returned
report then has no `rawMarkdown` at all. -/
theorem c5_counterexample :
    (analyzeGeologyProcess (some "\x7b\x7d") (some {}) [] "Loc" ""
        ⟨1, 2⟩).rawMarkdown = none := rfl

/-- Claim C6 (amended): the synchronous prefix of `handleAnalysis` sets the
status to UPLOADING and clears the previous run's report and deep-analysis
text before any Model Gateway call, but it does not clear the chart-data
sequence: the previous run's chart data survives until the new chart call
resolves. -/
theorem c6_reset_behavior (s : AppState) :
    (handleAnalysisReset s).status = .UPLOADING
    ∧ (handleAnalysisReset s).report = none
    ∧ (handleAnalysisReset s).deepAnalysisResult = none
    ∧ (handleAnalysisReset s).chartData = s.chartData :=
  ⟨rfl, rfl, rfl, rfl⟩

/-- Counterexample to claim C6 as stated: a state holding chart data from a
previous run still holds it after the run-start reset. -/
theorem c6_counterexample :
    (handleAnalysisReset { chartData := [⟨1, 2, 3⟩] }).chartData = [⟨1, 2, 3⟩]
    ∧ (handleAnalysisReset { chartData := [⟨1, 2, 3⟩] }).chartData ≠ [] :=
  ⟨rfl, List.cons_ne_nil _ _⟩

/-- Claim C3 (amended): during a run, the status becomes ERROR if and only
if the full-report promise or the chart-data promise rejects in the
ANALYZING_AI phase; no user-visible alert is raised (`handleAnalysis`
contains no alert call, so the alert log is unchanged); a failure of the
side calls resolves to an empty/neutral default and never yields ERROR; and
a failed deep-reasoning pass never yields ERROR but stores the fallback
string "Deep thinking analysis unavailable." in the deep-analysis field
instead of leaving it unset. -/
theorem c3_error_propagation (s : AppState)
    (rr : Except GatewayError MiningReportJson)
    (cr : Except GatewayError (List GeoDataPoint))
    (ud : Bool) (dgw : Except GatewayError (Option String))
    (snap : String) (tc : Coordinates) (poly : Option (List Coordinates)) :
    ((analyzingPhase s rr cr ud dgw snap tc poly).status = .ERROR
        ↔ (isErr rr = true ∨ isErr cr = true))
    ∧ ((analyzingPhase s rr cr ud dgw snap tc poly).status = .COMPLETE
        ↔ (isErr rr = false ∧ isErr cr = false))
    ∧ (analyzingPhase s rr cr ud dgw snap tc poly).alerts = s.alerts
    ∧ (∀ e : GatewayError, quickGeologyScan (.error e) = ""
        ∧ findNearbyMines (.error e) = []
        ∧ performDeepThinkingAnalysis (.error e)
            = "Deep thinking analysis unavailable.")
    ∧ (ud = true → isErr rr = false → isErr cr = false →
        (analyzingPhase s rr cr ud dgw snap tc poly).deepAnalysisResult
          = some (performDeepThinkingAnalysis dgw)) := by
  cases rr <;> cases cr <;> cases ud <;>
    simp [analyzingPhase, isErr, quickGeologyScan, findNearbyMines,
      performDeepThinkingAnalysis]

/-- Witness for C3 with a rejected chart call (status ERROR) and a
successful pair with a deep pass (status COMPLETE, deep result stored). -/
theorem c3_error_propagation_witness :
    (analyzingPhase {} (.ok {}) (.error ⟨"quota"⟩) false (.ok none) "s" ⟨1, 2⟩
        none).status = .ERROR
    ∧ (analyzingPhase {} (.ok {}) (.ok []) true (.ok (some "deep")) "s" ⟨1, 2⟩
        none).deepAnalysisResult = some (performDeepThinkingAnalysis (.ok (some "deep"))) := by
  refine ⟨?_, ?_⟩
  · exact (c3_error_propagation {} (.ok {}) (.error ⟨"quota"⟩) false (.ok none)
      "s" ⟨1, 2⟩ none).1.mpr (Or.inr rfl)
  · exact (c3_error_propagation {} (.ok {}) (.ok []) true (.ok (some "deep"))
      "s" ⟨1, 2⟩ none).2.2.2.2 rfl rfl rfl

/-- Counterexample to claim C3 as stated: a failed deep pass does not leave
the deep-analysis field unset — the run completes with the field set to the
fallback string; and on a required-call failure the status is ERROR yet no
alert has been raised. -/
theorem c3_counterexample :
    (analyzingPhase {} (.ok {}) (.ok []) true (.error ⟨"net"⟩) "s" ⟨1, 2⟩
        none).status = .COMPLETE
    ∧ (analyzingPhase {} (.ok {}) (.ok []) true (.error ⟨"net"⟩) "s" ⟨1, 2⟩
        none).deepAnalysisResult = some "Deep thinking analysis unavailable."
    ∧ (analyzingPhase {} (.ok {}) (.ok []) true (.error ⟨"net"⟩) "s" ⟨1, 2⟩
        none).deepAnalysisResult ≠ none
    ∧ (analyzingPhase {} (.error ⟨"net"⟩) (.ok []) false (.ok none) "s" ⟨1, 2⟩
        none).status = .ERROR
    ∧ (analyzingPhase {} (.error ⟨"net"⟩) (.ok []) false (.ok none) "s" ⟨1, 2⟩
        none).alerts = [] := by
  refine ⟨rfl, rfl, Option.some_ne_none _, rfl, rfl⟩

/-- Claim C4: within a single run the status sequence moves strictly forward
through UPLOADING, FETCHING_SATELLITE, PROCESSING_GEOPHYSICS, SCRAPING_DATA,
ANALYZING_AI (never regressing), and the run ends in exactly one of COMPLETE
or ERROR. -/
theorem c4_status_forward (s : AppState)
    (rr : Except GatewayError MiningReportJson)
    (cr : Except GatewayError (List GeoDataPoint))
    (ud : Bool) (dgw : Except GatewayError (Option String))
    (snap : String) (tc : Coordinates) (poly : Option (List Coordinates)) :
    strictlyForward (runStatusTrace s rr cr ud dgw snap tc poly) = true
    ∧ ((runStatusTrace s rr cr ud dgw snap tc poly).getLast?
          = some .COMPLETE
        ∨ (runStatusTrace s rr cr ud dgw snap tc poly).getLast? = some .ERROR)
    ∧ ((runStatusTrace s rr cr ud dgw snap tc poly).getLast? = some .COMPLETE
        ↔ ¬(runStatusTrace s rr cr ud dgw snap tc poly).getLast?
            = some .ERROR) := by
  cases rr <;> cases cr <;> cases ud <;>
    simp [runStatusTrace, handleAnalysisReset, analyzingPhase, strictlyForward,
      statusRank]

/-- Claim C8 (amended): the importer's result is the `filterMap` of the data
rows (everything after the header line) under the designated columns — a row
yields a coordinate exactly when both designated cells parse as floats, with
no latitude/longitude range validation; all other rows are silently skipped
and accepted coordinates preserve file order. -/
theorem c8_importer_behavior (content : String) (firstLine : List Char)
    (rest : List (List Char)) (h : csvLines content = firstLine :: rest) :
    parseCSV content
      = rest.filterMap (csvRowCoord (csvDelim firstLine)
          (csvLatIdx ((splitOnCharL (csvDelim firstLine) firstLine).map cleanL))
          (csvLngIdx ((splitOnCharL (csvDelim firstLine) firstLine).map cleanL)))
    ∧ (∀ (latIdx lngIdx : Option Nat) (row : List Char),
        (∃ c : Coordinates,
            csvRowCoord (csvDelim firstLine) latIdx lngIdx row = some c)
          ↔ ((csvField (splitOnCharL (csvDelim firstLine) row) latIdx).isSome
              ∧ (csvField (splitOnCharL (csvDelim firstLine) row)
                  lngIdx).isSome)) := by
  constructor
  · unfold parseCSV
    rw [h]
    exact csvRowsLoop_eq_filterMap _ _ _ rest
  · intro latIdx lngIdx row
    unfold csvRowCoord
    cases hla : csvField (splitOnCharL (csvDelim firstLine) row) latIdx <;>
      cases hlo : csvField (splitOnCharL (csvDelim firstLine) row) lngIdx <;>
        simp [hla, hlo]

/-- Witness for C8 at the spec's scenario input: the header line designates
columns 0 and 1 with the comma delimiter, and both data rows are emitted. -/
theorem c8_importer_behavior_witness :
    parseCSV "latitude,longitude\n10.5,20.5\n91.0,20.5\n"
      = ["10.5,20.5".toList, "91.0,20.5".toList].filterMap
          (csvRowCoord ',' (some 0) (some 1)) := by
  have h := (c8_importer_behavior "latitude,longitude\n10.5,20.5\n91.0,20.5\n"
    "latitude,longitude".toList ["10.5,20.5".toList, "91.0,20.5".toList]
    (by decide)).1
  have hd : csvDelim "latitude,longitude".toList = ',' := by decide
  rw [hd] at h
  have hlat : csvLatIdx ((splitOnCharL ',' "latitude,longitude".toList).map cleanL)
      = some 0 := by decide
  have hlng : csvLngIdx ((splitOnCharL ',' "latitude,longitude".toList).map cleanL)
      = some 1 := by decide
  rw [hlat, hlng] at h
  exact h

/-- Counterexample to claim C8 as stated: on the spec's scenario input the
importer emits two coordinates — the out-of-range latitude 91.0 is accepted
because the code performs no range validation — so the result is not the
claimed singleton. -/
theorem c8_counterexample :
    (parseCSV "latitude,longitude\n10.5,20.5\n91.0,20.5\n").length = 2
    ∧ parseCSV "latitude,longitude\n10.5,20.5\n91.0,20.5\n" ≠ [⟨21/2, 41/2⟩] := by
  have h2 : (parseCSV "latitude,longitude\n10.5,20.5\n91.0,20.5\n").length = 2 := by
    decide
  refine ⟨h2, ?_⟩
  intro h
  rw [h] at h2
  simp at h2

/-- Claim C9 (amended): for every non-empty chart-data sequence the exported
CSV text consists of the header line `depth_m,resistivity_ohmm,mag_sus`
followed by one comma-separated, unquoted row per chart point containing its
depth, resistivity and magnetic susceptibility in that order. -/
theorem c9_export_format (pts : List GeoDataPoint) (h : pts ≠ []) :
    handleDownloadCSV pts
      = some (jsJoin "\n"
          ("depth_m,resistivity_ohmm,mag_sus" :: pts.map chartRow)) := by
  have hmne : pts.map chartRow ≠ [] := by simpa using h
  rw [jsJoin_cons "\n" _ _ hmne]
  unfold handleDownloadCSV
  rw [if_neg (by simpa [List.isEmpty_iff] using h)]
  have hhd : ("depth_m,resistivity_ohmm,mag_sus\n" : String)
      = "depth_m,resistivity_ohmm,mag_sus" ++ "\n" := by decide
  rw [hhd, String.append_assoc]

/-- Witness for C9 with a single chart point. -/
theorem c9_export_format_witness :
    handleDownloadCSV [⟨0, 1, 2⟩]
      = some (jsJoin "\n"
          ("depth_m,resistivity_ohmm,mag_sus" :: [⟨0, 1, 2⟩].map chartRow)) :=
  c9_export_format [⟨0, 1, 2⟩] (by simp)

/-- Counterexample to claim C9 as stated: the header line of the exported
text is `depth_m,resistivity_ohmm,mag_sus`, not the claimed
`depth_m,resistivity_ohmm,magnetic_susceptibility_si`. -/
theorem c9_counterexample :
    handleDownloadCSV [⟨0, 1, 2⟩] = some "depth_m,resistivity_ohmm,mag_sus\n0,1,2"
    ∧ handleDownloadCSV [⟨0, 1, 2⟩]
        ≠ some "depth_m,resistivity_ohmm,magnetic_susceptibility_si\n0,1,2" := by
  refine ⟨by decide, by decide⟩

end GeoProspector
